import Mathlib

/-!
Shallow embedding of `src/kfto_mnist.py`, a distributed MNIST training
driver with periodic snapshotting and resume-from-snapshot support.

The embedding models the control flow of the script faithfully:
* `ddp_setup` — backend/device selection and process-group initialization,
  including the CPU fallback and the device-ordinal clamp;
* `Trainer.init` — environment-variable resolution (`LOCAL_RANK`,
  `RANK`), device resolution, snapshot loading, and DDP wrapping;
* `snapshotOf` / `trainLoop` — the `_save_snapshot` payload and the
  `train` epoch loop (`for epoch in range(self.epochs_run, max_epochs)`);
* `runMain` — the straight-line body of `main` after parameter
  extraction, recording whether `dist.destroy_process_group()` runs;
* `bindCall` — Python call-argument binding, used for the
  `if __name__ == "__main__"` call site.

Model state dicts are association lists from parameter-key strings to
abstract values; DDP wrapping is modelled by its observable effect on
keys (the `module.` name space added by the wrapper), which is what the
snapshot round-trip behaviour depends on.
-/

namespace KftoMnist

/-- Distributed backend choice (`--backend`, choices gloo | nccl). -/
inductive Backend
  | gloo
  | nccl
deriving DecidableEq, Repr

/-- Ambient accelerator state of the process:
`torch.cuda.is_available()` and `torch.cuda.device_count()`. -/
structure World where
  cudaAvailable : Bool
  numDevices : Nat
deriving DecidableEq, Repr

/-- The environment variables the script reads, already parsed as
integers; `none` means the variable is absent. -/
structure Env where
  localRank : Option Int
  rank : Option Int
deriving DecidableEq, Repr

/-- Severity of an emitted log record (`logger.info` / `logger.warning`). -/
inductive LogLevel
  | info
  | warning
deriving DecidableEq, Repr

/-- One emitted log record. -/
structure LogRec where
  level : LogLevel
  msg : String
deriving DecidableEq, Repr

/-- A device a model can be bound to.  The cuda ordinal is an `Int`
because the script builds it from the raw `LOCAL_RANK` value, which can
be negative. -/
inductive Device
  | cpu
  | cuda (i : Int)
deriving DecidableEq, Repr

/-- A cuda ordinal is bindable only when it lies in `[0, numDevices)`;
the cpu device is always bindable. -/
def deviceValid (w : World) : Device → Bool
  | Device.cpu => true
  | Device.cuda i => decide (0 ≤ i) && decide (i < (w.numDevices : Int))

/-- Observable effects of `ddp_setup`: the arguments passed to
`torch.cuda.set_device`, the backend handed to
`dist.init_process_group`, and the log records emitted. -/
structure SetupResult where
  setDeviceCalls : List Int
  initBackend : Backend
  logs : List LogRec
deriving DecidableEq, Repr

/-- `ddp_setup(backend)` (src/kfto_mnist.py lines 33–45): on the
cuda+nccl path, resolve `LOCAL_RANK` with default 0, clamp to device 0
with a warning when the ordinal is `>= device_count`, and
`set_device`; otherwise log the CPU fallback and initialize with gloo. -/
def ddp_setup (w : World) (env : Env) (backend : Backend) : SetupResult :=
  if w.cudaAvailable && backend == Backend.nccl then
    let device : Int := env.localRank.getD 0
    if (w.numDevices : Int) ≤ device then
      { setDeviceCalls := [0], initBackend := Backend.nccl,
        logs := [⟨LogLevel.warning, "Invalid device ordinal. Defaulting to device 0."⟩] }
    else
      { setDeviceCalls := [device], initBackend := Backend.nccl, logs := [] }
  else
    { setDeviceCalls := [], initBackend := Backend.gloo,
      logs := [⟨LogLevel.info, "No GPU available, falling back to CPU."⟩] }

/-- A model state dict: parameter keys mapped to abstract values. -/
abbrev StateDict := List (String × Int)

/-- Parameter keys of `Net` (conv1, conv2, fc1, fc2, each with weight
and bias). -/
def netKeys : List String :=
  ["conv1.weight", "conv1.bias", "conv2.weight", "conv2.bias",
   "fc1.weight", "fc1.bias", "fc2.weight", "fc2.bias"]

/-- A freshly constructed `Net()`'s state dict (values abstracted). -/
def netState0 : StateDict := netKeys.map (fun k => (k, 0))

/-- The state dict of a DDP wrapper around a module: every key of the
inner module's state dict gains the wrapper's `module.` name space. -/
def wrapModuleKeys (sd : StateDict) : StateDict :=
  sd.map (fun kv => ("module." ++ kv.1, kv.2))

/-- `Module.load_state_dict` with the default `strict=True`: raises iff
the loaded keys and the target module's keys differ as sets (missing or
unexpected keys). -/
def loadStateDict (targetKeys : List String) (sd : StateDict) :
    Except String StateDict :=
  let loadedKeys := sd.map Prod.fst
  if targetKeys.all (fun k => loadedKeys.contains k) &&
      loadedKeys.all (fun k => targetKeys.contains k) then
    Except.ok sd
  else
    Except.error "Error in loading state_dict: missing or unexpected keys"

/-- The snapshot payload written by `_save_snapshot`:
`MODEL_STATE` and `EPOCHS_RUN`. -/
structure Snapshot where
  modelState : StateDict
  epochsRun : Nat
deriving DecidableEq, Repr

/-- Content of the file at `snapshot_path` (`none` = no file). -/
abbrev FS := Option Snapshot

/-- Ways `Trainer.__init__` can raise: `KeyError` on a missing `RANK`,
or a strict `load_state_dict` failure while loading a snapshot. -/
inductive InitError
  | keyErrorRank
  | loadKeyMismatch
deriving DecidableEq, Repr

/-- The `Trainer` after `__init__` finished: `innerModel` is the module
inside the DDP wrapper (`self.model.module`). -/
structure Trainer where
  localRank : Int
  globalRank : Int
  saveEvery : Nat
  epochsRun : Nat
  backend : Backend
  device : Device
  innerModel : StateDict
  ddpDeviceIds : Option (List Int)
deriving DecidableEq, Repr

/-- `Trainer.__init__` (src/kfto_mnist.py lines 66–107):
`LOCAL_RANK` resolved with default -1, `RANK` required (`KeyError` when
absent), device `cuda:{local_rank}` on the cuda+nccl path else cpu,
snapshot loaded if the path exists (strict `load_state_dict` into the
raw model, then `epochs_run` taken from the snapshot), and finally the
model is wrapped in DDP with `device_ids=[local_rank]` on the cuda+nccl
path and no device ids otherwise. -/
def Trainer.init (w : World) (env : Env) (model0 : StateDict)
    (saveEvery : Nat) (backend : Backend) (fs : FS) :
    Except InitError Trainer :=
  match env.rank with
  | none => Except.error InitError.keyErrorRank
  | some rank =>
    let localRank : Int := env.localRank.getD (-1)
    let device : Device :=
      if w.cudaAvailable && backend == Backend.nccl then Device.cuda localRank
      else Device.cpu
    let deviceIds : Option (List Int) :=
      if w.cudaAvailable && backend == Backend.nccl then some [localRank]
      else none
    match fs with
    | none =>
      Except.ok
        { localRank := localRank, globalRank := rank, saveEvery := saveEvery,
          epochsRun := 0, backend := backend, device := device,
          innerModel := model0, ddpDeviceIds := deviceIds }
    | some snap =>
      match loadStateDict (model0.map Prod.fst) snap.modelState with
      | Except.error _ => Except.error InitError.loadKeyMismatch
      | Except.ok sd =>
        Except.ok
          { localRank := localRank, globalRank := rank, saveEvery := saveEvery,
            epochsRun := snap.epochsRun, backend := backend, device := device,
            innerModel := sd, ddpDeviceIds := deviceIds }

/-- `_save_snapshot(epoch)` (lines 129–135): `MODEL_STATE` is
`self.model.module.state_dict()` when cuda is available and
`self.model.state_dict()` (the DDP wrapper's dict, keys in the
`module.` name space) otherwise; `EPOCHS_RUN` is the epoch index just
completed. -/
def snapshotOf (w : World) (t : Trainer) (epoch : Nat) : Snapshot :=
  { modelState :=
      if w.cudaAvailable then t.innerModel else wrapModuleKeys t.innerModel,
    epochsRun := epoch }

/-- Trace of one `train` call: the epoch indices executed and the
snapshot writes performed, in order. -/
structure TrainTrace where
  executed : List Nat
  writes : List Snapshot
deriving DecidableEq, Repr

/-- `train(max_epochs, backend)` (lines 143–147):
`for epoch in range(self.epochs_run, max_epochs)`, saving a snapshot
iff `self.global_rank == 0 and epoch % self.save_every == 0`.
`self.epochs_run` is never mutated by the loop. -/
def trainLoop (w : World) (t : Trainer) (maxEpochs : Nat) : TrainTrace :=
  let idxs := (List.range maxEpochs).drop t.epochsRun
  { executed := idxs,
    writes := idxs.filterMap (fun e =>
      if t.globalRank == 0 && e % t.saveEvery == 0 then
        some (snapshotOf w t e)
      else none) }

/-- `torch.save` overwrites the file at `snapshot_path`: after `train`
the path holds the last write, or its previous content if no write
happened. -/
def fsAfter (fs : FS) (tr : TrainTrace) : FS :=
  match tr.writes.getLast? with
  | some s => some s
  | none => fs

/-- Outcome of one run of the body of `main`. -/
structure RunOutcome where
  setup : SetupResult
  result : Except InitError TrainTrace
  fs : FS
  teardownCalls : Nat
deriving Repr

/-- Body of `main` after parameter extraction (lines 171–176):
`ddp_setup`, construct the Trainer over a fresh `Net()`, `train`, then
`dist.destroy_process_group()`.  The calls are straight-line, with no
`try`/`finally`: teardown runs only when everything before it
returned. -/
def runMain (w : World) (env : Env) (epochs saveEvery : Nat)
    (backend : Backend) (fs : FS) : RunOutcome :=
  let setup := ddp_setup w env backend
  match Trainer.init w env netState0 saveEvery backend fs with
  | Except.error e =>
    { setup := setup, result := Except.error e, fs := fs, teardownCalls := 0 }
  | Except.ok t =>
    let tr := trainLoop w t epochs
    { setup := setup, result := Except.ok tr, fs := fsAfter fs tr,
      teardownCalls := 1 }

/-- Epoch indices executed by the run (empty when the run raised). -/
def execEpochs (o : RunOutcome) : List Nat :=
  match o.result with
  | Except.ok tr => tr.executed
  | Except.error _ => []

/-- `EPOCHS_RUN` values of the snapshots written by the run, in order
(empty when the run raised). -/
def savedEpochs (o : RunOutcome) : List Nat :=
  match o.result with
  | Except.ok tr => tr.writes.map Snapshot.epochsRun
  | Except.error _ => []

/-- `True` iff the run returned normally. -/
def resultOk (o : RunOutcome) : Bool :=
  match o.result with
  | Except.ok _ => true
  | Except.error _ => false

/-- `epochs_run` of a constructed Trainer (`none` when `__init__`
raised). -/
def initEpochsRun (r : Except InitError Trainer) : Option Nat :=
  match r with
  | Except.ok t => some t.epochsRun
  | Except.error _ => none

/-- Device-binding data of a constructed Trainer: resolved local rank,
resolved device, DDP `device_ids` (`none` when `__init__` raised). -/
def initInfo (r : Except InitError Trainer) :
    Option (Int × Device × Option (List Int)) :=
  match r with
  | Except.ok t => some (t.localRank, t.device, t.ddpDeviceIds)
  | Except.error _ => none

/-- Keys of the model state stored at `snapshot_path` (`none` when no
file). -/
def fsKeys (fs : FS) : Option (List String) :=
  match fs with
  | some snap => some (snap.modelState.map Prod.fst)
  | none => none

/-- Positional parameter names of `def main(parameters)`. -/
def mainParams : List String := ["parameters"]

/-- Keyword-argument names used at the call site under
`if __name__ == "__main__"` (lines 190–198). -/
def cliKeywords : List String :=
  ["epochs", "save_every", "batch_size", "lr", "dataset_path",
   "snapshot_path", "backend"]

/-- Result of binding a Python call. -/
inductive CallOutcome
  | bound
  | typeError (msg : String)
deriving DecidableEq, Repr

/-- Python call-argument binding for a function whose parameters are the
plain positional list `params` (no defaults, no star parameters),
invoked with `numPos` positional arguments and the given
keyword-argument names: `TypeError` when there are too many positional
arguments, a keyword does not name a parameter, a keyword names an
already positionally bound parameter, or a parameter remains unbound. -/
def bindCall (params : List String) (numPos : Nat)
    (keywords : List String) : CallOutcome :=
  if params.length < numPos then
    CallOutcome.typeError "too many positional arguments"
  else if keywords.any (fun k => !(params.contains k)) then
    CallOutcome.typeError "unexpected keyword argument"
  else if keywords.any (fun k => (params.take numPos).contains k) then
    CallOutcome.typeError "multiple values for argument"
  else if params.any (fun p =>
      !((params.take numPos).contains p || keywords.contains p)) then
    CallOutcome.typeError "missing required argument"
  else CallOutcome.bound

/-- A cuda-less host (`torch.cuda.is_available()` false, zero devices). -/
def cpuWorld : World := { cudaAvailable := false, numDevices := 0 }

/-- A host with one cuda device. -/
def gpuWorld1 : World := { cudaAvailable := true, numDevices := 1 }

/-- Launcher environment of the rank-0 process: LOCAL_RANK=0, RANK=0. -/
def envRank0 : Env := { localRank := some 0, rank := some 0 }

/-- Environment with `RANK` absent. -/
def envNoRank : Env := { localRank := some 0, rank := none }

/-- Environment with `LOCAL_RANK` absent. -/
def envNoLocalRank : Env := { localRank := none, rank := some 0 }

/-- Environment of a process launched with LOCAL_RANK=5, RANK=0. -/
def envLocal5 : Env := { localRank := some 5, rank := some 0 }

/-- The last epoch index at which rank 0 saves during a fresh `N`-epoch
run with `save_every = s`: the largest multiple of `s` below `N`. -/
def lastSaved (N s : Nat) : Nat := s * ((N - 1) / s)

/-! ### Helper lemmas -/

lemma filterMap_if_eq_map_filter {α : Type} (p : Nat → Bool) (f : Nat → α) :
    ∀ l : List Nat,
      (l.filterMap fun e => if p e then some (f e) else none) =
        (l.filter p).map f := by
  intro l
  induction l with
  | nil => simp
  | cons a l ih =>
    by_cases h : p a
    · simp [List.filterMap_cons, List.filter_cons, h, ih]
    · simp [List.filterMap_cons, List.filter_cons, h, ih]

/-- The last element of the multiples of `s` below `N` is the largest
multiple of `s` below `N`. -/
lemma filter_mod_getLast (s : Nat) :
    ∀ N : Nat, 0 < N →
      ((List.range N).filter fun e => e % s == 0).getLast? =
        some (lastSaved N s) := by
  intro N
  induction N with
  | zero => intro h; exact absurd h (by omega)
  | succ n ih =>
    intro _
    rcases Nat.eq_zero_or_pos n with hn | hn
    · subst hn
      simp [lastSaved, List.range_succ]
    · rw [List.range_succ, List.filter_append]
      by_cases hmod : n % s = 0
      · have hdvd : s ∣ n := Nat.dvd_of_mod_eq_zero hmod
        have hbeq : List.filter (fun e => e % s == 0) [n] = [n] := by
          simp [hmod]
        rw [hbeq, List.getLast?_concat]
        have heq : lastSaved (n + 1) s = n := by
          unfold lastSaved
          rw [Nat.add_sub_cancel]
          exact Nat.mul_div_cancel' hdvd
        rw [heq]
      · have hbeq : List.filter (fun e => e % s == 0) [n] = [] := by
          simp [hmod]
        rw [hbeq, List.append_nil, ih hn]
        have hdvd : ¬ s ∣ n := by
          rw [Nat.dvd_iff_mod_eq_zero]
          exact hmod
        have heq : lastSaved (n + 1) s = lastSaved n s := by
          unfold lastSaved
          congr 1
          have hn1 : n - 1 + 1 = n := by omega
          have hsd := Nat.succ_div (n - 1) s
          rw [hn1] at hsd
          rw [Nat.add_sub_cancel, hsd, if_neg hdvd]
          omega
        rw [heq]

lemma lastSaved_lt (N s : Nat) (hN : 0 < N) : lastSaved N s < N := by
  have h1 : lastSaved N s ≤ N - 1 := by
    unfold lastSaved
    rw [Nat.mul_comm]
    exact Nat.div_mul_le_self (N - 1) s
  omega

/-- `Trainer.__init__` on the rank-0 environment with no snapshot file
succeeds and yields the expected fresh Trainer. -/
lemma trainer_init_fresh (w : World) (b : Backend) (s : Nat) :
    Trainer.init w envRank0 netState0 s b none =
      Except.ok
        { localRank := 0, globalRank := 0, saveEvery := s, epochsRun := 0,
          backend := b,
          device := if w.cudaAvailable && b == Backend.nccl then Device.cuda 0
            else Device.cpu,
          innerModel := netState0,
          ddpDeviceIds := if w.cudaAvailable && b == Backend.nccl then some [0]
            else none } := rfl

/-- On the accelerator path a snapshot carries the inner module's keys,
so the strict load succeeds and `epochs_run` is taken from the file. -/
lemma trainer_init_resume_gpu (s L : Nat) :
    Trainer.init gpuWorld1 envRank0 netState0 s Backend.nccl
        (some { modelState := netState0, epochsRun := L }) =
      Except.ok
        { localRank := 0, globalRank := 0, saveEvery := s, epochsRun := L,
          backend := Backend.nccl, device := Device.cuda 0,
          innerModel := netState0, ddpDeviceIds := some [0] } := rfl

/-- A snapshot whose model state carries the DDP wrapper's `module.`
keys cannot be strictly loaded into the raw model at construction. -/
lemma trainer_init_resume_cpu_fails (s L : Nat) (b : Backend) :
    Trainer.init cpuWorld envRank0 netState0 s b
        (some { modelState := wrapModuleKeys netState0, epochsRun := L }) =
      Except.error InitError.loadKeyMismatch := rfl

/-- The epoch loop of a rank-0 Trainer with `epochs_run = 0` executes
`range N` and writes one snapshot per epoch index divisible by
`save_every`, each carrying that epoch index. -/
lemma trainLoop_rank0 (w : World) (s N : Nat) (m : StateDict) (lr : Int)
    (b : Backend) (d : Device) (ids : Option (List Int)) :
    trainLoop w ⟨lr, 0, s, 0, b, d, m, ids⟩ N =
      { executed := List.range N,
        writes := ((List.range N).filter fun e => e % s == 0).map
          (fun e => ⟨if w.cudaAvailable then m else wrapModuleKeys m, e⟩) } := by
  simp only [trainLoop, List.drop_zero]
  congr 1
  rw [← filterMap_if_eq_map_filter]
  congr 1

/-- A fresh rank-0 run of `main` leaves the largest multiple of
`save_every` below `epochs` in the snapshot file, executes every epoch
in `range epochs`, and saves exactly at the epoch indices divisible by
`save_every`. -/
lemma runMain_fresh_rank0 (w : World) (b : Backend) (N s : Nat) (hN : 0 < N) :
    (runMain w envRank0 N s b none).fs =
      some { modelState :=
               if w.cudaAvailable then netState0 else wrapModuleKeys netState0,
             epochsRun := lastSaved N s } ∧
    execEpochs (runMain w envRank0 N s b none) = List.range N ∧
    savedEpochs (runMain w envRank0 N s b none) =
      (List.range N).filter fun e => e % s == 0 := by
  have h1 := trainer_init_fresh w b s
  have h2 := trainLoop_rank0 w s N netState0 0 b
      (if w.cudaAvailable && b == Backend.nccl then Device.cuda 0 else Device.cpu)
      (if w.cudaAvailable && b == Backend.nccl then some [0] else none)
  refine ⟨?_, ?_, ?_⟩
  · simp only [runMain, h1, h2, fsAfter]
    rw [List.getLast?_map, filter_mod_getLast s N hN]
    rfl
  · simp only [runMain, h1, h2, execEpochs]
  · simp only [runMain, h1, h2, savedEpochs]
    rw [List.map_map]
    exact List.map_id _

/-- A concrete rank-0 CPU Trainer used as a witness input. -/
def trainer0 : Trainer :=
  { localRank := 0, globalRank := 0, saveEvery := 2, epochsRun := 0,
    backend := Backend.gloo, device := Device.cpu, innerModel := netState0,
    ddpDeviceIds := none }

/-- A concrete rank-0 GPU Trainer used as a witness input. -/
def trainer1g : Trainer :=
  { localRank := 0, globalRank := 0, saveEvery := 1, epochsRun := 0,
    backend := Backend.nccl, device := Device.cuda 0, innerModel := netState0,
    ddpDeviceIds := some [0] }

/-! ### Claim theorems -/

/-- C1, counterexample: in a fresh one-epoch rank-0 run, the only
completed epoch is 0 and the snapshot written after it stores
`EPOCHS_RUN = 0`, not `0 + 1` as the claim requires. -/
theorem C1_counterexample :
    execEpochs (runMain gpuWorld1 envRank0 1 1 Backend.nccl none) = [0] ∧
    savedEpochs (runMain gpuWorld1 envRank0 1 1 Backend.nccl none) = [0] ∧
    savedEpochs (runMain gpuWorld1 envRank0 1 1 Backend.nccl none) ≠ [0 + 1] :=
  ⟨by decide, by decide, by decide⟩

/-- C1, amended: every snapshot the Trainer writes after completing
epoch `e` stores `epochs_run = e` (the completed epoch index itself,
not `e + 1`), and a resume that loads such a snapshot continues at
exactly `e`, re-running epoch `e`. -/
theorem C1_theorem (w : World) (t : Trainer) (maxE e : Nat)
    (he : e ∈ (trainLoop w t maxE).executed)
    (hr : t.globalRank = 0) (hs : e % t.saveEvery = 0) :
    snapshotOf w t e ∈ (trainLoop w t maxE).writes ∧
    (snapshotOf w t e).epochsRun = e ∧
    ∀ t2 : Trainer, t2.epochsRun = e → e < maxE →
      (trainLoop w t2 maxE).executed.head? = some e := by
  refine ⟨?_, rfl, ?_⟩
  · simp only [trainLoop] at he ⊢
    refine List.mem_filterMap.mpr ⟨e, he, ?_⟩
    rw [hr, hs]
    simp
  · intro t2 h2 hlt
    simp only [trainLoop, h2]
    rw [List.head?_eq_getElem?, List.getElem?_drop]
    simp [List.getElem?_range, hlt]

/-- C1, witness: the amended statement instantiated at a concrete
rank-0 GPU Trainer, one epoch, save_every 1. -/
theorem C1_witness :
    0 ∈ (trainLoop gpuWorld1 trainer1g 1).executed ∧
    snapshotOf gpuWorld1 trainer1g 0 ∈ (trainLoop gpuWorld1 trainer1g 1).writes ∧
    (snapshotOf gpuWorld1 trainer1g 0).epochsRun = 0 ∧
    (trainLoop gpuWorld1 trainer1g 1).executed.head? = some 0 :=
  have h := C1_theorem gpuWorld1 trainer1g 1 0 (by decide) rfl (by decide)
  ⟨by decide, h.1, h.2.1, h.2.2 trainer1g rfl (by decide)⟩

/-- C2, counterexample: train for N = 1 epoch on the rank-0 accelerator
path, then construct a new Trainer from the saved snapshot and train to
max_epochs = 1 again: the resumed Trainer has `epochs_run = 0` (not 1)
and the second run re-executes epoch 0 (the loop range is not empty). -/
theorem C2_counterexample :
    execEpochs (runMain gpuWorld1 envRank0 1 1 Backend.nccl
        (runMain gpuWorld1 envRank0 1 1 Backend.nccl none).fs) = [0] ∧
    initEpochsRun (Trainer.init gpuWorld1 envRank0 netState0 1 Backend.nccl
        (runMain gpuWorld1 envRank0 1 1 Backend.nccl none).fs) = some 0 ∧
    initEpochsRun (Trainer.init gpuWorld1 envRank0 netState0 1 Backend.nccl
        (runMain gpuWorld1 envRank0 1 1 Backend.nccl none).fs) ≠ some 1 :=
  ⟨by decide, by decide, by decide⟩

/-- C2, amended: on the rank-0 accelerator path, after training for
N > 0 epochs with save_every = s > 0, a new Trainer constructed from
the saved snapshot resumes with `epochs_run` equal to the largest
multiple of s below N (strictly less than N, never N), and training to
max_epochs = N again re-executes every epoch from that index on — the
loop range is not empty. -/
theorem C2_theorem (N s : Nat) (hN : 0 < N) (hs : 0 < s) :
    lastSaved N s < N ∧
    initEpochsRun (Trainer.init gpuWorld1 envRank0 netState0 s Backend.nccl
        (runMain gpuWorld1 envRank0 N s Backend.nccl none).fs) =
      some (lastSaved N s) ∧
    execEpochs (runMain gpuWorld1 envRank0 N s Backend.nccl
        (runMain gpuWorld1 envRank0 N s Backend.nccl none).fs) =
      (List.range N).drop (lastSaved N s) ∧
    (List.range N).drop (lastSaved N s) ≠ [] := by
  have hfs := (runMain_fresh_rank0 gpuWorld1 Backend.nccl N s hN).1
  rw [show (if gpuWorld1.cudaAvailable then netState0
      else wrapModuleKeys netState0) = netState0 from rfl] at hfs
  have hlt := lastSaved_lt N s hN
  refine ⟨hlt, ?_, ?_, ?_⟩
  · rw [hfs, trainer_init_resume_gpu]
    rfl
  · rw [hfs]
    simp only [runMain, trainer_init_resume_gpu, execEpochs]
    rfl
  · intro hcon
    have hlen := congrArg List.length hcon
    simp [List.length_drop] at hlen
    omega

/-- C2, witness: the amended statement instantiated at N = 1,
save_every = 1. -/
theorem C2_witness :
    ((0 : Nat) < 1 ∧ (0 : Nat) < 1) ∧
    (lastSaved 1 1 < 1 ∧
      initEpochsRun (Trainer.init gpuWorld1 envRank0 netState0 1 Backend.nccl
          (runMain gpuWorld1 envRank0 1 1 Backend.nccl none).fs) =
        some (lastSaved 1 1) ∧
      execEpochs (runMain gpuWorld1 envRank0 1 1 Backend.nccl
          (runMain gpuWorld1 envRank0 1 1 Backend.nccl none).fs) =
        (List.range 1).drop (lastSaved 1 1) ∧
      (List.range 1).drop (lastSaved 1 1) ≠ []) :=
  ⟨⟨by decide, by decide⟩, C2_theorem 1 1 (by decide) (by decide)⟩

/-- C3: for a Trainer with no prior snapshot (`epochs_run = 0`) and
`0 < save_every ≤ epochs`, the number of snapshot writes during `train`
equals the number of epoch indices `e` in `[0, epochs)` with
`e % save_every = 0` when the process has global rank 0, and a process
of any other rank performs no write at all. -/
theorem C3_theorem (w : World) (t : Trainer) (epochs : Nat)
    (h0 : t.epochsRun = 0) (hs : 0 < t.saveEvery) (hle : t.saveEvery ≤ epochs) :
    (t.globalRank = 0 →
      (trainLoop w t epochs).writes.length =
        ((List.range epochs).filter fun e => e % t.saveEvery == 0).length) ∧
    (t.globalRank ≠ 0 → (trainLoop w t epochs).writes = []) := by
  constructor
  · intro hr
    simp only [trainLoop, h0, List.drop_zero]
    have hfun : (fun e => if t.globalRank == 0 && e % t.saveEvery == 0 then
          some (snapshotOf w t e) else none)
        = (fun e => if e % t.saveEvery == 0 then
          some (snapshotOf w t e) else none) := by
      funext e
      rw [hr]
      simp
    rw [hfun, filterMap_if_eq_map_filter, List.length_map]
  · intro hr
    simp only [trainLoop, h0, List.drop_zero]
    have hfalse : (t.globalRank == 0) = false := by
      simp [hr]
    have hfun : (fun e => if t.globalRank == 0 && e % t.saveEvery == 0 then
          some (snapshotOf w t e) else none)
        = (fun _ : Nat => (none : Option Snapshot)) := by
      funext e
      rw [hfalse]
      simp
    rw [hfun]
    simp

/-- C3, witness: the statement instantiated at a concrete rank-0
Trainer with save_every = 2 over 5 epochs (3 writes: epochs 0, 2, 4). -/
theorem C3_witness :
    trainer0.epochsRun = 0 ∧ 0 < trainer0.saveEvery ∧ trainer0.saveEvery ≤ 5 ∧
    (trainLoop cpuWorld trainer0 5).writes.length =
      ((List.range 5).filter fun e => e % trainer0.saveEvery == 0).length :=
  ⟨rfl, by decide, by decide,
    (C3_theorem cpuWorld trainer0 5 rfl (by decide) (by decide)).1 rfl⟩

/-- C4: with `LOCAL_RANK` absent, `ddp_setup` resolves the device
ordinal to 0, but `Trainer.__init__` resolves the local rank to -1 and
binds the model device and the DDP `device_ids` to cuda ordinal -1 on
the accelerator path — an invalid device, contradicting the claim that
both places resolve to 0. -/
theorem C4_theorem :
    (ddp_setup gpuWorld1 envNoLocalRank Backend.nccl).setDeviceCalls = [0] ∧
    initInfo (Trainer.init gpuWorld1 envNoLocalRank netState0 1 Backend.nccl none) =
      some (-1, Device.cuda (-1), some [-1]) ∧
    deviceValid gpuWorld1 (Device.cuda (-1)) = false :=
  ⟨rfl, rfl, rfl⟩

/-- C5: with `LOCAL_RANK = 5` and one device, `ddp_setup` clamps its
`set_device` call to 0 with a warning, but `Trainer.__init__` re-reads
the raw value and binds the model and the DDP wrapper to cuda ordinal
5, which is out of range — the clamp does not protect the Trainer's
device bind. -/
theorem C5_theorem :
    (ddp_setup gpuWorld1 envLocal5 Backend.nccl).setDeviceCalls = [0] ∧
    (ddp_setup gpuWorld1 envLocal5 Backend.nccl).logs.any
      (fun r => r.level == LogLevel.warning) = true ∧
    initInfo (Trainer.init gpuWorld1 envLocal5 netState0 1 Backend.nccl none) =
      some (5, Device.cuda 5, some [5]) ∧
    deviceValid gpuWorld1 (Device.cuda 5) = false :=
  ⟨rfl, rfl, rfl, rfl⟩

/-- C6, counterexample: with `RANK` absent the run raises during
Trainer construction and `destroy_process_group` is never called — the
teardown count on this exit path is 0, not exactly 1 as the claim
requires for every exit path. -/
theorem C6_counterexample :
    resultOk (runMain cpuWorld envNoRank 2 1 Backend.gloo none) = false ∧
    (runMain cpuWorld envNoRank 2 1 Backend.gloo none).teardownCalls = 0 ∧
    (runMain cpuWorld envNoRank 2 1 Backend.gloo none).teardownCalls ≠ 1 :=
  ⟨by decide, by decide, by decide⟩

/-- C6, amended: the process-group teardown is called exactly once when
the run completes normally, and zero times when an error is raised
before or during training (the calls are straight-line, with no
try/finally around them). -/
theorem C6_theorem (w : World) (env : Env) (epochs s : Nat) (b : Backend)
    (fs : FS) :
    (resultOk (runMain w env epochs s b fs) = true →
      (runMain w env epochs s b fs).teardownCalls = 1) ∧
    (resultOk (runMain w env epochs s b fs) = false →
      (runMain w env epochs s b fs).teardownCalls = 0) := by
  cases hinit : Trainer.init w env netState0 s b fs with
  | error e =>
    have ht : (runMain w env epochs s b fs).teardownCalls = 0 := by
      simp [runMain, hinit]
    have hr : resultOk (runMain w env epochs s b fs) = false := by
      simp [runMain, hinit, resultOk]
    refine ⟨fun h => ?_, fun _ => ht⟩
    rw [hr] at h
    exact absurd h (by decide)
  | ok t =>
    have ht : (runMain w env epochs s b fs).teardownCalls = 1 := by
      simp [runMain, hinit]
    have hr : resultOk (runMain w env epochs s b fs) = true := by
      simp [runMain, hinit, resultOk]
    refine ⟨fun _ => ht, fun h => ?_⟩
    rw [hr] at h
    exact absurd h (by decide)

/-- C6, witness: the amended statement at a normal run (teardown once)
and at a run that raises from a missing `RANK` (teardown never). -/
theorem C6_witness :
    (runMain cpuWorld envRank0 1 1 Backend.gloo none).teardownCalls = 1 ∧
    (runMain cpuWorld envNoRank 1 1 Backend.gloo none).teardownCalls = 0 :=
  ⟨(C6_theorem cpuWorld envRank0 1 1 Backend.gloo none).1 (by decide),
   (C6_theorem cpuWorld envNoRank 1 1 Backend.gloo none).2 (by decide)⟩

/-- C7: when the `RANK` environment value is absent the run fails with
the `KeyError` raised in Trainer construction, before any training
work: no epoch is executed, no snapshot is written, and the snapshot
file is unchanged. -/
theorem C7_theorem (w : World) (env : Env) (epochs s : Nat) (b : Backend)
    (fs : FS) (h : env.rank = none) :
    (runMain w env epochs s b fs).result =
      Except.error InitError.keyErrorRank ∧
    execEpochs (runMain w env epochs s b fs) = [] ∧
    savedEpochs (runMain w env epochs s b fs) = [] ∧
    (runMain w env epochs s b fs).fs = fs := by
  have hinit : Trainer.init w env netState0 s b fs =
      Except.error InitError.keyErrorRank := by
    unfold Trainer.init
    rw [h]
  refine ⟨?_, ?_, ?_, ?_⟩ <;>
    simp [runMain, hinit, execEpochs, savedEpochs]

/-- C7, witness: the statement instantiated at a concrete
`RANK`-less environment. -/
theorem C7_witness :
    envNoRank.rank = none ∧
    (runMain cpuWorld envNoRank 3 1 Backend.gloo none).result =
      Except.error InitError.keyErrorRank ∧
    execEpochs (runMain cpuWorld envNoRank 3 1 Backend.gloo none) = [] ∧
    savedEpochs (runMain cpuWorld envNoRank 3 1 Backend.gloo none) = [] ∧
    (runMain cpuWorld envNoRank 3 1 Backend.gloo none).fs = none :=
  have h := C7_theorem cpuWorld envNoRank 3 1 Backend.gloo none rfl
  ⟨rfl, h.1, h.2.1, h.2.2.1, h.2.2.2⟩

/-- C8, counterexample: requesting nccl with no accelerator selects
gloo, but the record logged is at info level and no warning-level
record is emitted — the claim's "warning logged" does not hold. -/
theorem C8_counterexample :
    (ddp_setup cpuWorld envRank0 Backend.nccl).initBackend = Backend.gloo ∧
    (ddp_setup cpuWorld envRank0 Backend.nccl).logs.all
      (fun r => r.level == LogLevel.info) = true ∧
    (ddp_setup cpuWorld envRank0 Backend.nccl).logs.any
      (fun r => r.level == LogLevel.warning) = false :=
  ⟨by decide, by decide, by decide⟩

/-- C8, amended: requesting the nccl transport with zero available
accelerator devices selects the gloo transport for process-group
initialization with an informational (not warning-level) message
logged, never a fatal error and never a device bind. -/
theorem C8_theorem (w : World) (env : Env) (hdev : w.numDevices = 0)
    (hav : w.cudaAvailable = false) :
    (ddp_setup w env Backend.nccl).initBackend = Backend.gloo ∧
    (ddp_setup w env Backend.nccl).logs =
      [{ level := LogLevel.info,
         msg := "No GPU available, falling back to CPU." }] ∧
    (ddp_setup w env Backend.nccl).setDeviceCalls = [] := by
  simp [ddp_setup, hav]

/-- C8, witness: the amended statement at the concrete cuda-less
world. -/
theorem C8_witness :
    cpuWorld.numDevices = 0 ∧ cpuWorld.cudaAvailable = false ∧
    ((ddp_setup cpuWorld envRank0 Backend.nccl).initBackend = Backend.gloo ∧
      (ddp_setup cpuWorld envRank0 Backend.nccl).logs =
        [{ level := LogLevel.info,
           msg := "No GPU available, falling back to CPU." }] ∧
      (ddp_setup cpuWorld envRank0 Backend.nccl).setDeviceCalls = []) :=
  ⟨rfl, rfl, C8_theorem cpuWorld envRank0 rfl rfl⟩

/-- C9: on the no-accelerator path, the snapshot a fresh rank-0 run
leaves behind carries the DDP wrapper's state dict — every key has the
`module.` name space — and a subsequent run constructing a Trainer from
that snapshot fails during the strict load into the unwrapped model. -/
theorem C9_theorem (N s : Nat) (hN : 0 < N) (hs : 0 < s) :
    fsKeys (runMain cpuWorld envRank0 N s Backend.gloo none).fs =
      some (netKeys.map fun k => "module." ++ k) ∧
    (netKeys.map fun k => "module." ++ k).all
      (fun k => "module.".data.isPrefixOf k.data) = true ∧
    (runMain cpuWorld envRank0 N s Backend.gloo
        (runMain cpuWorld envRank0 N s Backend.gloo none).fs).result =
      Except.error InitError.loadKeyMismatch := by
  have hfs := (runMain_fresh_rank0 cpuWorld Backend.gloo N s hN).1
  rw [show (if cpuWorld.cudaAvailable then netState0
      else wrapModuleKeys netState0) = wrapModuleKeys netState0 from rfl] at hfs
  refine ⟨?_, by decide, ?_⟩
  · rw [hfs]
    rfl
  · rw [hfs]
    simp only [runMain, trainer_init_resume_cpu_fails]

/-- C9, witness: the statement instantiated at N = 1, save_every = 1. -/
theorem C9_witness :
    ((0 : Nat) < 1 ∧ (0 : Nat) < 1) ∧
    (fsKeys (runMain cpuWorld envRank0 1 1 Backend.gloo none).fs =
        some (netKeys.map fun k => "module." ++ k) ∧
      (netKeys.map fun k => "module." ++ k).all
        (fun k => "module.".data.isPrefixOf k.data) = true ∧
      (runMain cpuWorld envRank0 1 1 Backend.gloo
          (runMain cpuWorld envRank0 1 1 Backend.gloo none).fs).result =
        Except.error InitError.loadKeyMismatch) :=
  ⟨⟨by decide, by decide⟩, C9_theorem 1 1 (by decide) (by decide)⟩

/-- C10: `main` declares exactly one positional parameter
(`parameters`), while the command-line entry point calls it with seven
keyword arguments none of which names a parameter, so Python argument
binding raises TypeError before the body of `main` — and hence before
any setup or training — can run. -/
theorem C10_theorem :
    mainParams.length = 1 ∧
    bindCall mainParams 0 cliKeywords =
      CallOutcome.typeError "unexpected keyword argument" ∧
    cliKeywords.length = 7 :=
  ⟨rfl, rfl, rfl⟩

end KftoMnist
